import Mathlib

/-!
Verification of the `pypbo.perf.metrics` module (risk-adjusted performance
statistics for financial return series).

The Python source works on numpy arrays / pandas series of floats.  The
shallow embedding models a NaN-free return series as a `List ℝ`, floating
point arithmetic as exact real arithmetic, and a Python function that can
raise an exception as a function into `Except String _`.  Each definition
below is translated from the corresponding function of
`src/pypbo/perf/metrics.py`; doc comments cite the source function.
-/

namespace PyPbo

open MeasureTheory

noncomputable section

/-- Arithmetic mean of a list, `np.nanmean` / `Series.mean` on NaN-free
data: sum divided by length (`0` on the empty list, as real division by
zero is `0` in this embedding). -/
def mean (l : List ℝ) : ℝ := l.sum / l.length

/-- `metrics.maxzero`: `np.maximum(x, 0)`. -/
def maxzero (x : ℝ) : ℝ := max x 0

/-- `metrics.pct_to_log_return`: `np.log(1 + returns)` elementwise (the
`fillna(0)` / `nan_to_num` step is the identity on NaN-free data). -/
def pct_to_log_return (pct_returns : List ℝ) : List ℝ :=
  pct_returns.map (fun r => Real.log (1 + r))

/-- `metrics.log_to_pct_return`: `np.exp(log_returns) - 1` elementwise. -/
def log_to_pct_return (log_returns : List ℝ) : List ℝ :=
  log_returns.map (fun r => Real.exp r - 1)

/-- Error message raised by `metrics.validate_return_type` (an
`AssertionError` in the source; braces elided from the message text). -/
def rt_err_msg : String := "AssertionError: mean_method can only be pct, log"

/-- `metrics.validate_return_type`: raises unless
`return_type ∈ {'pct', 'log'}`. -/
def validate_return_type (return_type : String) : Except String Unit :=
  if return_type = "pct" ∨ return_type = "log" then Except.ok ()
  else Except.error rt_err_msg

/-- `metrics.LPM` on a NaN-free series: mean over the observations of
`max(target - r, 0) ^ moment`. -/
def LPM (returns : List ℝ) (target_rtn : ℝ) (moment : ℕ) : ℝ :=
  mean (returns.map (fun r => maxzero (target_rtn - r) ^ moment))

/-- `metrics.kappa`: validates the return type; for `'pct'` the excess
`returns - target_rtn` is converted to log space *for the mean numerator
only*, while the `LPM` denominator is computed on the raw `returns`. -/
def kappa (returns : List ℝ) (target_rtn : ℝ) (moment : ℕ)
    (return_type : String) : Except String ℝ :=
  match validate_return_type return_type with
  | Except.error e => Except.error e
  | Except.ok _ =>
    let excess := if return_type = "pct"
      then pct_to_log_return (returns.map (fun r => r - target_rtn))
      else returns.map (fun r => r - target_rtn)
    Except.ok (mean excess / (LPM returns target_rtn moment) ^ ((1 : ℝ) / moment))

/-- `metrics.omega`: `1 + kappa(returns, target, moment=1, return_type)`. -/
def omega (returns : List ℝ) (target_rtn : ℝ)
    (return_type : String) : Except String ℝ :=
  match kappa returns target_rtn 1 return_type with
  | Except.error e => Except.error e
  | Except.ok k => Except.ok (1 + k)

/-- `metrics.sortino` (numpy branch, NaN-free): validates, converts the
whole series to log space when `'pct'`, then
`nanmean(returns - target) / sqrt(LPM(returns, target, 2)) * factor`. -/
def sortino (returns : List ℝ) (target_rtn factor : ℝ)
    (return_type : String) : Except String ℝ :=
  match validate_return_type return_type with
  | Except.error e => Except.error e
  | Except.ok _ =>
    let rs := if return_type = "pct" then pct_to_log_return returns else returns
    Except.ok (mean (rs.map (fun r => r - target_rtn)) /
      Real.sqrt (LPM rs target_rtn 2) * factor)

/-- Input of a ratio function: either a plain 1-D numpy array or a pandas
DataFrame (a list of named columns). -/
inductive PyInput where
  | arr (xs : List ℝ)
  | frame (cols : List (String × List ℝ))

/-- Output of a ratio function: a bare scalar, or a pandas Series mapping
column names to scalars. -/
inductive PyOutput where
  | scalar (x : ℝ)
  | series (xs : List (String × ℝ))

/-- The per-column computation of `metrics.sortino_iid`: excess over the
benchmark (converted to log space when `'pct'`), negative part, semi
standard deviation, and `factor * mean(excess) / semi_std`. -/
def sortino_iid_core (xs : List ℝ) (bench factor : ℝ)
    (return_type : String) : ℝ :=
  let excess := if return_type = "pct"
    then pct_to_log_return (xs.map (fun x => x - bench))
    else xs.map (fun x => x - bench)
  let neg_rtns := excess.map (fun x => if x < 0 then x else 0)
  let semi_std := Real.sqrt (mean (neg_rtns.map (fun x => x ^ 2)))
  factor * mean excess / semi_std

/-- `metrics.sortino_iid`: validates, then *converts a plain ndarray input
into a single-column DataFrame* (`pd.DataFrame(df)`, whose only column is
labelled `0`), so the result is always a per-column Series, never a bare
scalar. -/
def sortino_iid (df : PyInput) (bench factor : ℝ)
    (return_type : String) : Except String PyOutput :=
  match validate_return_type return_type with
  | Except.error e => Except.error e
  | Except.ok _ =>
    let cols := match df with
      | PyInput.arr xs => [("0", xs)]
      | PyInput.frame cs => cs
    Except.ok (PyOutput.series
      (cols.map (fun c => (c.1, sortino_iid_core c.2 bench factor return_type))))

/-- Sample standard deviation with `ddof=1`:
`sqrt(Σ (x - mean)² / (n - 1))`. -/
def stdSample (l : List ℝ) : ℝ :=
  Real.sqrt (((l.map (fun x => (x - mean l) ^ 2)).sum) / ((l.length : ℝ) - 1))

/-- `metrics.sharpe_iid` (numpy branch, NaN-free): validates, forms
`excess = df - bench`, converts the excess to log space when `'pct'`, then
`factor * mean(excess) / std(excess, ddof=1)`. -/
def sharpe_iid (df : List ℝ) (bench factor : ℝ)
    (return_type : String) : Except String ℝ :=
  match validate_return_type return_type with
  | Except.error e => Except.error e
  | Except.ok _ =>
    let excess0 := df.map (fun x => x - bench)
    let excess := if return_type = "pct" then pct_to_log_return excess0 else excess0
    Except.ok (factor * mean excess / stdSample excess)

/-- `metrics.sharpe_iid_rolling`: validates, converts the excess, then the
rolling-window Sharpe; positions with fewer than `window` observations of
history are missing (`none`), matching `min_periods=window` NaNs. -/
def sharpe_iid_rolling (df : List ℝ) (window : ℕ) (bench factor : ℝ)
    (return_type : String) : Except String (List (Option ℝ)) :=
  match validate_return_type return_type with
  | Except.error e => Except.error e
  | Except.ok _ =>
    let excess := if return_type = "pct"
      then pct_to_log_return (df.map (fun x => x - bench))
      else df.map (fun x => x - bench)
    Except.ok ((List.range excess.length).map (fun i =>
      if window ≤ i + 1 then
        let w := (excess.take (i + 1)).drop (i + 1 - window)
        some (factor * mean w / stdSample w)
      else none))

/-- Bias-corrected sample skewness, `scipy.stats.skew(bias=False)` /
`Series.skew()`: `sqrt(n (n-1)) / (n-2) * m3 / m2^(3/2)`. -/
def skew_sample (l : List ℝ) : ℝ :=
  let n := (l.length : ℝ)
  let m2 := ((l.map (fun x => (x - mean l) ^ 2)).sum) / n
  let m3 := ((l.map (fun x => (x - mean l) ^ 3)).sum) / n
  Real.sqrt (n * (n - 1)) / (n - 2) * (m3 / m2 ^ ((3 : ℝ) / 2))

/-- Bias-corrected sample excess kurtosis,
`scipy.stats.kurtosis(bias=False, fisher=True)` / `Series.kurtosis()`. -/
def kurtosis_sample (l : List ℝ) : ℝ :=
  let n := (l.length : ℝ)
  let m2 := ((l.map (fun x => (x - mean l) ^ 2)).sum) / n
  let m4 := ((l.map (fun x => (x - mean l) ^ 4)).sum) / n
  ((n + 1) * (m4 / m2 ^ 2 - 3) + 6) * (n - 1) / ((n - 2) * (n - 3))

/-- `metrics.adjusted_sharpe`: the Pezier-White correction
`sr * (1 + (skew / 6) * sr + excess_kurtosis / 24 * sr^2)`. -/
def adjusted_sharpe (sr skew excess_kurtosis : ℝ) : ℝ :=
  sr * (1 + skew / 6 * sr + excess_kurtosis / 24 * sr ^ 2)

/-- `metrics.sharpe_iid_adjusted`: delegates to `sharpe_iid` with
`factor=1` (which performs the return-type validation), then applies the
skew/kurtosis correction and scales by `factor`. -/
def sharpe_iid_adjusted (df : List ℝ) (bench factor : ℝ)
    (return_type : String) : Except String ℝ :=
  match sharpe_iid df bench 1 return_type with
  | Except.error e => Except.error e
  | Except.ok sr =>
    Except.ok (adjusted_sharpe sr (skew_sample df) (kurtosis_sample df) * factor)

/-- Element lookup with numpy-style positional indexing (`0` default is
never hit on in-range indices). -/
def nth (l : List ℝ) (i : ℕ) : ℝ := l.getD i 0

/-- Sample autocovariance at lag `k` (numerator of `statsmodels`
`acf(unbiased=False)`): `Σ_{t=0}^{n-1-k} (x_t - x̄)(x_{t+k} - x̄)`. -/
def autocov (l : List ℝ) (k : ℕ) : ℝ :=
  ((List.range (l.length - k)).map
    (fun t => (nth l t - mean l) * (nth l (t + k) - mean l))).sum

/-- Sample autocorrelation at lag `k`, `statsmodels.tsa.stattools.acf`
with `unbiased=False`: autocovariance at lag `k` over the lag-0
autocovariance. -/
def acf (l : List ℝ) (k : ℕ) : ℝ := autocov l k / autocov l 0

/-- Ljung-Box portmanteau statistic up to lag `h`:
`n (n+2) Σ_{k=1}^{h} acf_k² / (n - k)`. -/
def ljung_box_stat (l : List ℝ) (h : ℕ) : ℝ :=
  let n := (l.length : ℝ)
  n * (n + 2) *
    ((List.range h).map (fun k => acf l (k + 1) ^ 2 / (n - (k + 1)))).sum

/-- Survival function of the chi-squared distribution with `k` degrees of
freedom (upper tail of its density), the distribution of the Ljung-Box
statistic under the null: models `scipy.stats.chi2.sf`. -/
def chi2_sf (k : ℕ) (x : ℝ) : ℝ :=
  ∫ t in Set.Ioi x,
    t ^ ((k : ℝ) / 2 - 1) * Real.exp (-t / 2) /
      ((2 : ℝ) ^ ((k : ℝ) / 2) * Real.Gamma ((k : ℝ) / 2))

/-- `metrics.sharpe_autocorr_factor`: the Lo (2002) adjustment factor and
the Ljung-Box p-value.  The source sums
`(q - (k+1)) * acf[k+1] for k in range(q - 2)`, i.e. over
`k = 0 .. q-3` (autocorrelation lags `1 .. q-2`), and takes `pval[-2]`,
the p-value of the test up to lag `q-1`. -/
def sharpe_autocorr_factor (returns : List ℝ) (q : ℕ) : ℝ × ℝ :=
  let term := (List.range (q - 2)).map
    (fun k => ((q : ℝ) - (k + 1)) * acf returns (k + 1))
  ((q : ℝ) / Real.sqrt ((q : ℝ) + 2 * term.sum),
    chi2_sf (q - 1) (ljung_box_stat returns (q - 1)))

/-- The adjustment factor exactly as the claim states it:
`q / sqrt(q + 2 * Σ_{k=0}^{q-2} (q-(k+1)) * acf[k+1])`, the sum running
over `k = 0 .. q-2` inclusive (`List.range (q-1)`), so that every lag
from `1` to `q-1` contributes (the Lo 2002 formula). -/
def lo_factor_claim (returns : List ℝ) (q : ℕ) : ℝ :=
  (q : ℝ) / Real.sqrt ((q : ℝ) + 2 *
    ((List.range (q - 1)).map
      (fun k => ((q : ℝ) - (k + 1)) * acf returns (k + 1))).sum)

/-- `metrics.sharpe_non_iid` (array branch): delegates to `sharpe_iid`
with `factor=1` (which validates the return type), then rescales by the
Lo factor when the Ljung-Box p-value rejects the no-autocorrelation null
at `p_critical`, and by `sqrt(q)` otherwise. -/
def sharpe_non_iid (df : List ℝ) (bench : ℝ) (q : ℕ) (p_critical : ℝ)
    (return_type : String) : Except String ℝ :=
  match sharpe_iid df bench 1 return_type with
  | Except.error e => Except.error e
  | Except.ok sr =>
    let fp := sharpe_autocorr_factor df q
    if fp.2 < p_critical then Except.ok (sr * fp.1)
    else Except.ok (sr * Real.sqrt (q : ℝ))

/-- Python scalar division: raises `ZeroDivisionError` on a zero
denominator instead of returning infinity. -/
def pydiv (a b : ℝ) : Except String ℝ :=
  if b = 0 then Except.error "ZeroDivisionError" else Except.ok (a / b)

/-- `metrics.annualized_pct_return`:
`total_return ** (1 / (days / ann_factor)) - 1`, with each scalar division
modelled as Python division (raising on a zero denominator). -/
def annualized_pct_return (total_return days ann_factor : ℝ) :
    Except String ℝ :=
  match pydiv days ann_factor with
  | Except.error e => Except.error e
  | Except.ok years =>
    match pydiv 1 years with
    | Except.error e => Except.error e
    | Except.ok inv => Except.ok (total_return ^ inv - 1)

/-- `metrics.annualized_log_return`: `total_return / (days / ann_factor)`
with Python scalar division. -/
def annualized_log_return (total_return days ann_factor : ℝ) :
    Except String ℝ :=
  match pydiv days ann_factor with
  | Except.error e => Except.error e
  | Except.ok years => pydiv total_return years

/-- Minimum of a numpy array (unused default on the empty list). -/
def listMin : List ℝ → ℝ
  | [] => 0
  | x :: xs => xs.foldl min x

/-- Maximum of a numpy array (unused default on the empty list). -/
def listMax : List ℝ → ℝ
  | [] => 0
  | x :: xs => xs.foldl max x

/-- Empirical CDF (`statsmodels ECDF`): fraction of observations `≤ x`. -/
def ecdf (l : List ℝ) (x : ℝ) : ℝ :=
  ((l.filter (fun y => decide (y ≤ x))).length : ℝ) / l.length

/-- `np.linspace(start, stop, num)`: `num` evenly spaced points including
both endpoints. -/
def linspace (start stop : ℝ) (num : ℕ) : List ℝ :=
  (List.range num).map (fun i => start + (stop - start) * i / ((num : ℝ) - 1))

/-- Normal CDF with mean `mu` and standard deviation `sigma`
(`scipy.stats.norm.cdf`). -/
def norm_cdf (mu sigma x : ℝ) : ℝ :=
  ∫ t in Set.Iio x,
    Real.exp (-((t - mu) ^ 2) / (2 * sigma ^ 2)) /
      (sigma * Real.sqrt (2 * Real.pi))

/-- `metrics.omega_empirical`: validates, converts `'pct'` input, builds
the empirical-CDF and normal-CDF grids over
`linspace(min, max, steps)`, and falls off the end of the function body
without a `return` statement, so with `plot=False` it returns `None`
(with `plot=True` the source references the never-imported `plt` and
raises `NameError`). -/
def omega_empirical (returns : List ℝ) (target_rtn : ℝ)
    (return_type : String) (plot : Bool) (steps : ℕ) :
    Except String (Option ℝ) :=
  match validate_return_type return_type with
  | Except.error e => Except.error e
  | Except.ok _ =>
    let rs := if return_type = "pct" then pct_to_log_return returns else returns
    let x := linspace (listMin rs) (listMax rs) steps
    let _y := x.map (ecdf rs)
    let _norm := x.map (norm_cdf (mean rs) (stdSample rs))
    if plot then Except.error "NameError: name plt is not defined"
    else Except.ok none

end

/-- `metrics.trading_days`, the module-level default number of trading
days in a year: `255`. -/
def trading_days : ℕ := 255

/-- The default of the `q` parameter in the source signature
`sharpe_non_iid(df, bench=0, q=trading_days, p_critical=.05, ...)`. -/
def sharpe_non_iid_default_q : ℕ := trading_days

/-- Control events of a metrics call, used to model in which order a
function validates its configuration, delegates, and starts numeric work
on the series data. -/
inductive Ev where
  | enter (name : String)
  | validate
  | coerce
  | compute
deriving DecidableEq

/-- Control skeleton of `metrics.kappa`: enters, validates directly, and
only then (on a valid return type) starts numeric work. -/
def kappa_tr (rt : String) : List Ev :=
  Ev.enter "kappa" :: Ev.validate ::
    (if rt = "pct" ∨ rt = "log" then [Ev.compute] else [])

/-- Control skeleton of `metrics.omega`: enters and immediately delegates
to `kappa`; it contains no validation call of its own. -/
def omega_tr (rt : String) : List Ev :=
  Ev.enter "omega" ::
    (kappa_tr rt ++ if rt = "pct" ∨ rt = "log" then [Ev.compute] else [])

/-- Control skeleton of `metrics.sortino`: validates directly. -/
def sortino_tr (rt : String) : List Ev :=
  Ev.enter "sortino" :: Ev.validate ::
    (if rt = "pct" ∨ rt = "log" then [Ev.compute] else [])

/-- Control skeleton of `metrics.sortino_iid`: validates directly (the
ndarray-to-DataFrame conversion and all numeric work come after). -/
def sortino_iid_tr (rt : String) : List Ev :=
  Ev.enter "sortino_iid" :: Ev.validate ::
    (if rt = "pct" ∨ rt = "log" then [Ev.compute] else [])

/-- Control skeleton of `metrics.sharpe_iid`: validates directly. -/
def sharpe_iid_tr (rt : String) : List Ev :=
  Ev.enter "sharpe_iid" :: Ev.validate ::
    (if rt = "pct" ∨ rt = "log" then [Ev.compute] else [])

/-- Control skeleton of `metrics.sharpe_iid_rolling`: validates directly. -/
def sharpe_iid_rolling_tr (rt : String) : List Ev :=
  Ev.enter "sharpe_iid_rolling" :: Ev.validate ::
    (if rt = "pct" ∨ rt = "log" then [Ev.compute] else [])

/-- Control skeleton of `metrics.sharpe_iid_adjusted`: enters and
immediately delegates to `sharpe_iid`; no validation call of its own. -/
def sharpe_iid_adjusted_tr (rt : String) : List Ev :=
  Ev.enter "sharpe_iid_adjusted" ::
    (sharpe_iid_tr rt ++ if rt = "pct" ∨ rt = "log" then [Ev.compute] else [])

/-- Control skeleton of `metrics.sharpe_non_iid`: enters, coerces the `q`
parameter to an integer, then delegates to `sharpe_iid`; no validation
call of its own. -/
def sharpe_non_iid_tr (rt : String) : List Ev :=
  Ev.enter "sharpe_non_iid" :: Ev.coerce ::
    (sharpe_iid_tr rt ++ if rt = "pct" ∨ rt = "log" then [Ev.compute] else [])

/-- After a function's own `enter` event, does a `validate` occur before
entering any delegate (parameter coercion is not data work and may come
first)? -/
def validate_first : List Ev → Bool
  | [] => false
  | Ev.validate :: _ => true
  | Ev.coerce :: rest => validate_first rest
  | Ev.enter _ :: _ => false
  | Ev.compute :: _ => false

/-- A trace validates directly at the entry point when its first
post-entry event (modulo parameter coercion) is its own `validate`. -/
def validates_directly : List Ev → Bool
  | Ev.enter _ :: rest => validate_first rest
  | _ => false

/-- Does numeric work on the series data start before the first
validation in the trace? -/
def computes_before_validate : List Ev → Bool
  | [] => false
  | Ev.compute :: _ => true
  | Ev.validate :: _ => false
  | Ev.enter _ :: rest => computes_before_validate rest
  | Ev.coerce :: rest => computes_before_validate rest

/-- Is a ratio result a bare scalar (as opposed to a column-keyed
Series or an exception)? -/
def outIsScalar : Except String PyOutput → Bool
  | Except.ok (PyOutput.scalar _) => true
  | _ => false

/-- Helper: a sum of non-negative reals is zero iff every summand is. -/
theorem list_sum_eq_zero_iff (l : List ℝ) (h : ∀ x ∈ l, 0 ≤ x) :
    l.sum = 0 ↔ ∀ x ∈ l, x = 0 := by
  induction l with
  | nil => simp
  | cons a t ih =>
    have ha : 0 ≤ a := h a (by simp)
    have ht : ∀ x ∈ t, 0 ≤ x := fun x hx => h x (by simp [hx])
    have hts : 0 ≤ t.sum := List.sum_nonneg ht
    constructor
    · intro hz
      have hsum : a + t.sum = 0 := by simpa using hz
      have ha0 : a = 0 := by linarith
      have ht0 : t.sum = 0 := by linarith
      intro x hx
      rcases List.mem_cons.mp hx with hxa | hxt
      · simpa [hxa] using ha0
      · exact (ih ht).mp ht0 x hxt
    · intro hz
      have ha0 : a = 0 := hz a (by simp)
      have ht0 : t.sum = 0 := (ih ht).mpr (fun x hx => hz x (by simp [hx]))
      simp [ha0, ht0]

/-- C4: for a nonempty NaN-free return series, any target and any moment
order `n ≥ 1`, `LPM` is non-negative, and it is zero iff no observation
falls below the target. -/
theorem c4_lpm_nonneg_zero_iff (xs : List ℝ) (t : ℝ) (n : ℕ)
    (hxs : xs ≠ []) (hn : 1 ≤ n) :
    0 ≤ LPM xs t n ∧ (LPM xs t n = 0 ↔ ∀ x ∈ xs, t ≤ x) := by
  have hlen : 0 < (xs.length : ℝ) := by
    have : 0 < xs.length := List.length_pos.mpr hxs
    exact_mod_cast this
  have hmaplen : ((xs.map (fun r => PyPbo.maxzero (t - r) ^ n)).length : ℝ)
      = (xs.length : ℝ) := by simp
  have hnonneg : ∀ y ∈ xs.map (fun r => PyPbo.maxzero (t - r) ^ n), 0 ≤ y := by
    intro y hy
    rcases List.mem_map.mp hy with ⟨r, _, rfl⟩
    exact pow_nonneg (le_max_right _ _) n
  have hsum : 0 ≤ (xs.map (fun r => PyPbo.maxzero (t - r) ^ n)).sum :=
    List.sum_nonneg hnonneg
  constructor
  · unfold PyPbo.LPM PyPbo.mean
    rw [hmaplen]
    positivity
  · unfold PyPbo.LPM PyPbo.mean
    rw [hmaplen]
    rw [div_eq_zero_iff]
    constructor
    · intro h
      rcases h with h | h
      · intro x hx
        have hall := (list_sum_eq_zero_iff _ hnonneg).mp h
        have hx0 : PyPbo.maxzero (t - x) ^ n = 0 :=
          hall _ (List.mem_map.mpr ⟨x, hx, rfl⟩)
        have hm0 : PyPbo.maxzero (t - x) = 0 :=
          pow_eq_zero_iff (by omega) |>.mp hx0
        have : t - x ≤ 0 := by
          by_contra hlt
          push_neg at hlt
          have : PyPbo.maxzero (t - x) = t - x := max_eq_left (le_of_lt hlt)
          rw [this] at hm0
          linarith
        linarith
      · exact absurd h (ne_of_gt hlen)
    · intro h
      left
      apply (list_sum_eq_zero_iff _ hnonneg).mpr
      intro y hy
      rcases List.mem_map.mp hy with ⟨r, hr, rfl⟩
      have : t - r ≤ 0 := by have := h r hr; linarith
      have hm : PyPbo.maxzero (t - r) = 0 := max_eq_right this
      rw [hm]
      exact zero_pow (by omega)

/-- C4 witness: concrete instance `xs = [1, -1]`, `t = 0`, `n = 2`. -/
theorem c4_lpm_nonneg_zero_iff_witness :
    (([(1 : ℝ), -1] : List ℝ) ≠ []) ∧ 1 ≤ 2 ∧
    (0 ≤ PyPbo.LPM [(1 : ℝ), -1] 0 2 ∧
      (PyPbo.LPM [(1 : ℝ), -1] 0 2 = 0 ↔ ∀ x ∈ [(1 : ℝ), -1], (0 : ℝ) ≤ x)) :=
  ⟨by simp, by norm_num,
    c4_lpm_nonneg_zero_iff [(1 : ℝ), -1] 0 2 (by simp) (by norm_num)⟩

/-- C7: for any percentage series with `1 + p > 0` everywhere, converting
to log returns and back is the identity (exactly, in the real-number
model; the float code matches to floating-point tolerance). -/
theorem c7_round_trip (p : List ℝ) (h : ∀ x ∈ p, 0 < 1 + x) :
    PyPbo.log_to_pct_return (PyPbo.pct_to_log_return p) = p := by
  unfold PyPbo.log_to_pct_return PyPbo.pct_to_log_return
  rw [List.map_map]
  induction p with
  | nil => simp
  | cons a t ih =>
    have ha : 0 < 1 + a := h a (by simp)
    have ht : ∀ x ∈ t, 0 < 1 + x := fun x hx => h x (by simp [hx])
    simp only [List.map_cons, Function.comp]
    rw [ih ht]
    rw [Real.exp_log ha]
    simp

/-- C7 witness: round trip at the concrete series `[1/2]`. -/
theorem c7_round_trip_witness :
    (∀ x ∈ [(1 : ℝ) / 2], 0 < 1 + x) ∧
    PyPbo.log_to_pct_return (PyPbo.pct_to_log_return [(1 : ℝ) / 2]) = [(1 : ℝ) / 2] := by
  refine ⟨?_, c7_round_trip [(1 : ℝ) / 2] ?_⟩ <;>
    · intro x hx
      simp only [List.mem_singleton] at hx
      rw [hx]
      norm_num

/-- C5 counterexample: the default aggregation horizon of
`sharpe_non_iid` is not `252`. -/
theorem c5_counterexample : sharpe_non_iid_default_q ≠ 252 := by decide

/-- C5 amended: the default aggregation horizon of `sharpe_non_iid` is
the module constant `trading_days`, which is `255`. -/
theorem c5_default_q_is_255 :
    sharpe_non_iid_default_q = trading_days ∧ trading_days = 255 := by decide

/-- C8: both annualizers succeed for every `days > 0` (at the default
`ann_factor = 365`), and at `days = 0` each raises `ZeroDivisionError`
instead of silently returning an infinite value. -/
theorem c8_annualized_total_and_fails_on_zero_days (total days : ℝ)
    (h : 0 < days) :
    (annualized_pct_return total days 365).isOk = true ∧
    (annualized_log_return total days 365).isOk = true ∧
    annualized_pct_return total 0 365 = Except.error "ZeroDivisionError" ∧
    annualized_log_return total 0 365 = Except.error "ZeroDivisionError" := by
  have h365 : (365 : ℝ) ≠ 0 := by norm_num
  have hy : days / 365 ≠ 0 := div_ne_zero (ne_of_gt h) h365
  refine ⟨?_, ?_, ?_, ?_⟩
  · simp [annualized_pct_return, pydiv, h365, hy, Except.isOk, Except.toBool]
  · simp [annualized_log_return, pydiv, h365, hy, Except.isOk, Except.toBool]
  · simp [annualized_pct_return, pydiv, h365]
  · simp [annualized_log_return, pydiv, h365]

/-- C8 witness: concrete instance `total = 2`, `days = 1`. -/
theorem c8_annualized_witness :
    (0 : ℝ) < 1 ∧
    ((annualized_pct_return 2 1 365).isOk = true ∧
      (annualized_log_return 2 1 365).isOk = true ∧
      annualized_pct_return 2 0 365 = Except.error "ZeroDivisionError" ∧
      annualized_log_return 2 0 365 = Except.error "ZeroDivisionError") :=
  ⟨by norm_num, c8_annualized_total_and_fails_on_zero_days 2 1 (by norm_num)⟩

/-- C9 counterexample: `sortino_iid` on a plain 1-D array input does not
return a scalar; it returns the one-column Series produced by the
`pd.DataFrame(df)` conversion, keyed by column `0`. -/
theorem c9_counterexample :
    outIsScalar (sortino_iid (PyInput.arr [1, -1]) 0 1 "log") = false ∧
    sortino_iid (PyInput.arr [1, -1]) 0 1 "log" =
      Except.ok (PyOutput.series [("0", sortino_iid_core [1, -1] 0 1 "log")]) := by
  constructor <;> rfl

/-- C9 amended: ratio results are column-keyed Series for frame input,
and `sortino_iid` alone also returns a one-element column-keyed Series
(column `0`) for plain-array input, because it first wraps the array in a
single-column DataFrame. -/
theorem c9_amended (xs : List ℝ) (b f : ℝ) (cols : List (String × List ℝ)) :
    sortino_iid (PyInput.arr xs) b f "log" =
      Except.ok (PyOutput.series [("0", sortino_iid_core xs b f "log")]) ∧
    sortino_iid (PyInput.frame cols) b f "log" =
      Except.ok (PyOutput.series
        (cols.map (fun c => (c.1, sortino_iid_core c.2 b f "log")))) := by
  constructor <;> rfl

/-- C10: `omega_empirical` with `plot = false` and a valid return type
returns `None`; it never produces a numeric Omega ratio. -/
theorem c10_omega_empirical_returns_none (returns : List ℝ) (target : ℝ)
    (steps : ℕ) (rt : String) (h : rt = "pct" ∨ rt = "log") :
    omega_empirical returns target rt false steps = Except.ok none := by
  rcases h with h | h <;> subst h <;> rfl

/-- C10 witness: concrete instance at `rt = "log"`. -/
theorem c10_omega_empirical_returns_none_witness :
    (("log" : String) = "pct" ∨ ("log" : String) = "log") ∧
    omega_empirical [1, 2] 0 "log" false 5 = Except.ok none :=
  ⟨Or.inr rfl, c10_omega_empirical_returns_none [1, 2] 0 5 "log" (Or.inr rfl)⟩

/-- C2 amended: with `return_type = 'pct'`, `sortino`, `sharpe_iid` and
`sortino_iid` perform the entire computation (numerator and denominator)
on the pct-to-log converted values — each equals its own `'log'` path
applied to the converted series — but `kappa` (and hence `omega`)
converts only the mean numerator, computing its `LPM` denominator on the
raw percentage returns. -/
theorem c2_amended_pct_conversion (xs : List ℝ) (t b f : ℝ) (m : ℕ) :
    sortino xs t f "pct" = sortino (pct_to_log_return xs) t f "log" ∧
    sharpe_iid xs b f "pct" =
      sharpe_iid (pct_to_log_return (xs.map (fun x => x - b))) 0 f "log" ∧
    sortino_iid_core xs b f "pct" =
      sortino_iid_core (pct_to_log_return (xs.map (fun x => x - b))) 0 f "log" ∧
    kappa xs t m "pct" =
      Except.ok (mean (pct_to_log_return (xs.map (fun x => x - t))) /
        (LPM xs t m) ^ ((1 : ℝ) / m)) := by
  refine ⟨rfl, ?_, ?_, rfl⟩
  · simp [sharpe_iid, validate_return_type, sub_zero]
  · simp [sortino_iid_core, sub_zero]

/-- C2 counterexample: for `kappa` with `'pct'` input the claim fails —
the value differs from the one obtained by converting the input and then
running the whole computation in log space, already at
`returns = [-1/2, 1/2]`, `target = 0`, `moment = 1`. -/
theorem c2_counterexample :
    kappa [-(1 : ℝ)/2, 1/2] 0 1 "pct" ≠
      kappa (pct_to_log_return [-(1 : ℝ)/2, 1/2]) 0 1 "log" := by
  have hhalf : Real.log (1/2 : ℝ) = -Real.log 2 := by
    rw [one_div, Real.log_inv]
  have h32 : 0 < Real.log (3/2 : ℝ) := Real.log_pos (by norm_num)
  have hlog2pos : 0 < Real.log 2 := Real.log_pos (by norm_num)
  have hsum : Real.log (1/2 : ℝ) + Real.log (3/2 : ℝ) = Real.log (3/4 : ℝ) := by
    rw [← Real.log_mul (by norm_num) (by norm_num)]
    norm_num
  have h34 : Real.log (3/4 : ℝ) < 0 := Real.log_neg (by norm_num) (by norm_num)
  have hlog2 : (1 : ℝ)/2 < Real.log 2 := by
    have := Real.log_two_gt_d9
    linarith
  have hLPM1 : LPM [-(1 : ℝ)/2, 1/2] 0 1 = 1/4 := by
    simp only [LPM, mean, maxzero, List.map_cons, List.map_nil, List.sum_cons,
      List.sum_nil, List.length_cons, List.length_nil]
    norm_num [max_def]
  have hLPM2 : LPM (pct_to_log_return [-(1 : ℝ)/2, 1/2]) 0 1 = Real.log 2 / 2 := by
    simp only [pct_to_log_return, List.map_cons, List.map_nil]
    norm_num
    simp only [LPM, mean, maxzero, List.map_cons, List.map_nil, List.sum_cons,
      List.sum_nil, List.length_cons, List.length_nil]
    rw [hhalf]
    rw [max_eq_left (by linarith), max_eq_right (by linarith)]
    norm_num
  have hone : ((1 : ℝ) / ((1 : ℕ) : ℝ)) = 1 := by norm_num
  have hlog2ne : Real.log 2 ≠ 0 := ne_of_gt hlog2pos
  have hconv : pct_to_log_return ([-(1 : ℝ)/2, 1/2].map (fun r => r - 0)) =
      [Real.log (1/2 : ℝ), Real.log (3/2 : ℝ)] := by
    simp only [pct_to_log_return, List.map_cons, List.map_nil]
    norm_num
  have hconv2 : pct_to_log_return [-(1 : ℝ)/2, 1/2] =
      [Real.log (1/2 : ℝ), Real.log (3/2 : ℝ)] := by
    simp only [pct_to_log_return, List.map_cons, List.map_nil]
    norm_num
  have hLval : mean (pct_to_log_return ([-(1 : ℝ)/2, 1/2].map (fun r => r - 0))) /
      (LPM [-(1 : ℝ)/2, 1/2] 0 1) ^ ((1 : ℝ) / ((1 : ℕ) : ℝ)) =
      Real.log (3/4 : ℝ) * 2 := by
    rw [hLPM1, hone, Real.rpow_one, hconv]
    simp only [mean, List.sum_cons, List.sum_nil, List.length_cons,
      List.length_nil]
    rw [show Real.log (1/2 : ℝ) + (Real.log (3/2 : ℝ) + 0) = Real.log (3/4 : ℝ) by
      rw [← hsum]; ring]
    norm_num
    ring
  have hRval : mean ((pct_to_log_return [-(1 : ℝ)/2, 1/2]).map (fun r => r - 0)) /
      (LPM (pct_to_log_return [-(1 : ℝ)/2, 1/2]) 0 1) ^ ((1 : ℝ) / ((1 : ℕ) : ℝ)) =
      Real.log (3/4 : ℝ) / Real.log 2 := by
    rw [hLPM2, hone, Real.rpow_one, hconv2]
    simp only [List.map_cons, List.map_nil, sub_zero, mean, List.sum_cons,
      List.sum_nil, List.length_cons, List.length_nil]
    rw [show Real.log (1/2 : ℝ) + (Real.log (3/2 : ℝ) + 0) = Real.log (3/4 : ℝ) by
      rw [← hsum]; ring]
    field_simp
    ring
  have hL : kappa [-(1 : ℝ)/2, 1/2] 0 1 "pct" =
      Except.ok (Real.log (3/4 : ℝ) * 2) := by
    rw [show kappa [-(1 : ℝ)/2, 1/2] 0 1 "pct" =
      Except.ok (mean (pct_to_log_return ([-(1 : ℝ)/2, 1/2].map (fun r => r - 0))) /
        (LPM [-(1 : ℝ)/2, 1/2] 0 1) ^ ((1 : ℝ) / ((1 : ℕ) : ℝ))) from rfl]
    rw [hLval]
  have hR : kappa (pct_to_log_return [-(1 : ℝ)/2, 1/2]) 0 1 "log" =
      Except.ok (Real.log (3/4 : ℝ) / Real.log 2) := by
    rw [show kappa (pct_to_log_return [-(1 : ℝ)/2, 1/2]) 0 1 "log" =
      Except.ok (mean ((pct_to_log_return [-(1 : ℝ)/2, 1/2]).map (fun r => r - 0)) /
        (LPM (pct_to_log_return [-(1 : ℝ)/2, 1/2]) 0 1) ^
          ((1 : ℝ) / ((1 : ℕ) : ℝ))) from rfl]
    rw [hRval]
  rw [hL, hR]
  intro heq
  have hpay : Real.log (3/4 : ℝ) * 2 = Real.log (3/4 : ℝ) / Real.log 2 :=
    Except.ok.inj heq
  field_simp at hpay
  nlinarith [mul_neg_of_neg_of_pos h34
    (by linarith : (0 : ℝ) < 2 * Real.log 2 - 1)]

/-- C6 counterexample: `omega`, `sharpe_iid_adjusted` and
`sharpe_non_iid` do not validate the return type directly at their entry
point — the first thing each does after entry is delegate (`kappa` /
`sharpe_iid`), and only the delegate validates — refuting the claim's
"not only via a delegated call" at the invalid return type `"xyz"`. -/
theorem c6_counterexample :
    omega [1] 0 "xyz" = Except.error rt_err_msg ∧
    validates_directly (omega_tr "xyz") = false ∧
    validates_directly (sharpe_iid_adjusted_tr "xyz") = false ∧
    validates_directly (sharpe_non_iid_tr "xyz") = false :=
  ⟨rfl, by decide, by decide, by decide⟩

/-- C6 amended: every listed ratio function raises the
`validate_return_type` error on an unrecognized return type, and no
numeric work on the series data precedes the validation; `kappa`,
`sortino`, `sortino_iid`, `sharpe_iid` and `sharpe_iid_rolling` validate
directly at their entry point, while `omega`, `sharpe_iid_adjusted` and
`sharpe_non_iid` validate only via their delegated call to `kappa` /
`sharpe_iid`. -/
theorem c6_amended_validation (rt : String) (h1 : rt ≠ "pct")
    (h2 : rt ≠ "log") (xs : List ℝ) (inp : PyInput) (t b f p : ℝ)
    (m w q : ℕ) :
    (kappa xs t m rt = Except.error rt_err_msg ∧
      omega xs t rt = Except.error rt_err_msg ∧
      sortino xs t f rt = Except.error rt_err_msg ∧
      sortino_iid inp b f rt = Except.error rt_err_msg ∧
      sharpe_iid xs b f rt = Except.error rt_err_msg ∧
      sharpe_iid_rolling xs w b f rt = Except.error rt_err_msg ∧
      sharpe_iid_adjusted xs b f rt = Except.error rt_err_msg ∧
      sharpe_non_iid xs b q p rt = Except.error rt_err_msg) ∧
    (computes_before_validate (kappa_tr rt) = false ∧
      computes_before_validate (omega_tr rt) = false ∧
      computes_before_validate (sortino_tr rt) = false ∧
      computes_before_validate (sortino_iid_tr rt) = false ∧
      computes_before_validate (sharpe_iid_tr rt) = false ∧
      computes_before_validate (sharpe_iid_rolling_tr rt) = false ∧
      computes_before_validate (sharpe_iid_adjusted_tr rt) = false ∧
      computes_before_validate (sharpe_non_iid_tr rt) = false) ∧
    (validates_directly (kappa_tr rt) = true ∧
      validates_directly (sortino_tr rt) = true ∧
      validates_directly (sortino_iid_tr rt) = true ∧
      validates_directly (sharpe_iid_tr rt) = true ∧
      validates_directly (sharpe_iid_rolling_tr rt) = true) ∧
    (validates_directly (omega_tr rt) = false ∧
      validates_directly (sharpe_iid_adjusted_tr rt) = false ∧
      validates_directly (sharpe_non_iid_tr rt) = false) := by
  have hv : validate_return_type rt = Except.error rt_err_msg := by
    simp [validate_return_type, h1, h2]
  refine ⟨⟨?_, ?_, ?_, ?_, ?_, ?_, ?_, ?_⟩, ⟨?_, ?_, ?_, ?_, ?_, ?_, ?_, ?_⟩,
    ⟨?_, ?_, ?_, ?_, ?_⟩, ⟨?_, ?_, ?_⟩⟩
  · simp [kappa, hv]
  · simp [omega, kappa, hv]
  · simp [sortino, hv]
  · simp [sortino_iid, hv]
  · simp [sharpe_iid, hv]
  · simp [sharpe_iid_rolling, hv]
  · simp [sharpe_iid_adjusted, sharpe_iid, hv]
  · simp [sharpe_non_iid, sharpe_iid, hv]
  · simp [kappa_tr, computes_before_validate]
  · simp [omega_tr, kappa_tr, computes_before_validate, List.cons_append]
  · simp [sortino_tr, computes_before_validate]
  · simp [sortino_iid_tr, computes_before_validate]
  · simp [sharpe_iid_tr, computes_before_validate]
  · simp [sharpe_iid_rolling_tr, computes_before_validate]
  · simp [sharpe_iid_adjusted_tr, sharpe_iid_tr, computes_before_validate,
      List.cons_append]
  · simp [sharpe_non_iid_tr, sharpe_iid_tr, computes_before_validate,
      List.cons_append]
  · simp [kappa_tr, validates_directly, validate_first]
  · simp [sortino_tr, validates_directly, validate_first]
  · simp [sortino_iid_tr, validates_directly, validate_first]
  · simp [sharpe_iid_tr, validates_directly, validate_first]
  · simp [sharpe_iid_rolling_tr, validates_directly, validate_first]
  · simp [omega_tr, kappa_tr, validates_directly, validate_first,
      List.cons_append]
  · simp [sharpe_iid_adjusted_tr, sharpe_iid_tr, validates_directly,
      validate_first, List.cons_append]
  · simp [sharpe_non_iid_tr, sharpe_iid_tr, validates_directly,
      validate_first, List.cons_append]

/-- C6 witness: concrete instance at the invalid return type `"xyz"`. -/
theorem c6_amended_validation_witness :
    (("xyz" : String) ≠ "pct") ∧ (("xyz" : String) ≠ "log") ∧
    ((kappa [1] 0 2 "xyz" = Except.error rt_err_msg ∧
      omega [1] 0 "xyz" = Except.error rt_err_msg ∧
      sortino [1] 0 1 "xyz" = Except.error rt_err_msg ∧
      sortino_iid (PyInput.arr [1]) 0 1 "xyz" = Except.error rt_err_msg ∧
      sharpe_iid [1] 0 1 "xyz" = Except.error rt_err_msg ∧
      sharpe_iid_rolling [1] 2 0 1 "xyz" = Except.error rt_err_msg ∧
      sharpe_iid_adjusted [1] 0 1 "xyz" = Except.error rt_err_msg ∧
      sharpe_non_iid [1] 0 3 (1/20) "xyz" = Except.error rt_err_msg) ∧
    (computes_before_validate (kappa_tr "xyz") = false ∧
      computes_before_validate (omega_tr "xyz") = false ∧
      computes_before_validate (sortino_tr "xyz") = false ∧
      computes_before_validate (sortino_iid_tr "xyz") = false ∧
      computes_before_validate (sharpe_iid_tr "xyz") = false ∧
      computes_before_validate (sharpe_iid_rolling_tr "xyz") = false ∧
      computes_before_validate (sharpe_iid_adjusted_tr "xyz") = false ∧
      computes_before_validate (sharpe_non_iid_tr "xyz") = false) ∧
    (validates_directly (kappa_tr "xyz") = true ∧
      validates_directly (sortino_tr "xyz") = true ∧
      validates_directly (sortino_iid_tr "xyz") = true ∧
      validates_directly (sharpe_iid_tr "xyz") = true ∧
      validates_directly (sharpe_iid_rolling_tr "xyz") = true) ∧
    (validates_directly (omega_tr "xyz") = false ∧
      validates_directly (sharpe_iid_adjusted_tr "xyz") = false ∧
      validates_directly (sharpe_non_iid_tr "xyz") = false)) :=
  ⟨by decide, by decide,
    c6_amended_validation "xyz" (by decide) (by decide) [1] (PyInput.arr [1])
      0 0 1 (1/20) 2 2 3⟩

/-- Helper: elementary lower bound `1 - 1/x ≤ log x` for positive `x`. -/
theorem one_sub_inv_le_log (x : ℝ) (hx : 0 < x) : 1 - x⁻¹ ≤ Real.log x := by
  have h := Real.log_le_sub_one_of_pos (inv_pos.mpr hx)
  rw [Real.log_inv] at h
  linarith

/-- Helper: the order-2 lower partial moment is the mean of the squared
negative part of the excess (`max(t - r, 0)² = min(r - t, 0)²`). -/
theorem lpm2_eq_semivar (xs : List ℝ) (t : ℝ) :
    LPM xs t 2 =
      mean ((xs.map (fun x => x - t)).map
        (fun x => (if x < 0 then x else 0) ^ 2)) := by
  unfold LPM
  rw [List.map_map]
  congr 1
  apply List.map_congr_left
  intro r _
  simp only [Function.comp]
  rcases lt_or_le r t with h | h
  · rw [if_pos (by linarith : r - t < 0)]
    rw [show maxzero (t - r) = t - r from max_eq_left (by linarith)]
    ring
  · rw [if_neg (by simp; linarith)]
    rw [show maxzero (t - r) = 0 from max_eq_right (by linarith)]

/-- Helper: sample mean of the C1 test series. -/
theorem mean_1213 : mean [(1 : ℝ), 2, 1, 3] = 7/4 := by
  simp [mean, List.sum_cons, List.sum_nil]
  norm_num

/-- Helper: lag-0 autocovariance of the C1 test series. -/
theorem autocov_1213_0 : autocov [(1 : ℝ), 2, 1, 3] 0 = 11/4 := by
  simp [autocov, nth, List.range_succ, mean_1213]
  norm_num

/-- Helper: lag-1 autocovariance of the C1 test series. -/
theorem autocov_1213_1 : autocov [(1 : ℝ), 2, 1, 3] 1 = -21/16 := by
  simp [autocov, nth, List.range_succ, mean_1213]
  norm_num

/-- Helper: lag-2 autocovariance of the C1 test series. -/
theorem autocov_1213_2 : autocov [(1 : ℝ), 2, 1, 3] 2 = 7/8 := by
  simp [autocov, nth, List.range_succ, mean_1213]
  norm_num

/-- Helper: lag-1 autocorrelation of the C1 test series. -/
theorem acf_1213_1 : acf [(1 : ℝ), 2, 1, 3] 1 = -21/44 := by
  rw [acf, autocov_1213_1, autocov_1213_0]
  norm_num

/-- Helper: lag-2 autocorrelation of the C1 test series. -/
theorem acf_1213_2 : acf [(1 : ℝ), 2, 1, 3] 2 = 7/22 := by
  rw [acf, autocov_1213_2, autocov_1213_0]
  norm_num

/-- C1: at `returns = [1, 2, 1, 3]` and `q = 3` the factor computed by
the source, which sums over `range(q - 2)` (lags `1 .. q-2` only), is
`3 / sqrt(12/11)`, while the claim's sum over `k = 0 .. q-2` (all lags
`1 .. q-1`, the Lo 2002 formula the source's docstring cites) gives
`3 / sqrt(19/11)`; the source omits the lag `q-1` contribution and the
two factors differ. -/
theorem c1_factor_divergence :
    (sharpe_autocorr_factor [1, 2, 1, 3] 3).1 = 3 / Real.sqrt (12/11) ∧
    lo_factor_claim [1, 2, 1, 3] 3 = 3 / Real.sqrt (19/11) ∧
    (sharpe_autocorr_factor [1, 2, 1, 3] 3).1 ≠
      lo_factor_claim [1, 2, 1, 3] 3 := by
  have hc : (sharpe_autocorr_factor [1, 2, 1, 3] 3).1
      = 3 / Real.sqrt (12/11) := by
    simp [sharpe_autocorr_factor, List.range_succ, acf_1213_1]
    norm_num
  have hs : lo_factor_claim [1, 2, 1, 3] 3 = 3 / Real.sqrt (19/11) := by
    simp [lo_factor_claim, List.range_succ, acf_1213_1, acf_1213_2]
    norm_num
  refine ⟨hc, hs, ?_⟩
  rw [hc, hs]
  have h1 : Real.sqrt (12/11) < Real.sqrt (19/11) :=
    Real.sqrt_lt_sqrt (by norm_num) (by norm_num)
  have h2 : 0 < Real.sqrt (12/11) := Real.sqrt_pos.mpr (by norm_num)
  have h3 : (3 : ℝ)/Real.sqrt (19/11) < 3/Real.sqrt (12/11) :=
    div_lt_div_of_pos_left (by norm_num) h2 h1
  exact ne_of_gt h3

/-- C3 counterexample: at `returns = [11/5, 1/4]`, `target = log 2`,
`factor = 1`, `return_type = 'pct'`, `sortino` returns exactly `0`
(its converted mean equals the target), while `sortino_iid` returns a
value larger than `1e-9` in absolute difference — the two formulations
convert at different points (`sortino` converts the returns before
subtracting the target, `sortino_iid` converts the excess), so they do
not agree to within `1e-9`. -/
theorem c3_counterexample :
    sortino [11/5, 1/4] (Real.log 2) 1 "pct" = Except.ok 0 ∧
    sortino_iid (PyInput.arr [11/5, 1/4]) (Real.log 2) 1 "pct" =
      Except.ok (PyOutput.series
        [("0", sortino_iid_core [11/5, 1/4] (Real.log 2) 1 "pct")]) ∧
    (1e-9 : ℝ) < |sortino_iid_core [11/5, 1/4] (Real.log 2) 1 "pct" - 0| := by
  refine ⟨?_, rfl, ?_⟩
  · rw [show sortino [11/5, 1/4] (Real.log 2) 1 "pct" =
      Except.ok (mean ((pct_to_log_return [11/5, 1/4]).map
          (fun r => r - Real.log 2)) /
        Real.sqrt (LPM (pct_to_log_return [11/5, 1/4]) (Real.log 2) 2) * 1)
      from rfl]
    have hconv : pct_to_log_return [11/5, 1/4] =
        [Real.log (16/5 : ℝ), Real.log (5/4 : ℝ)] := by
      simp only [pct_to_log_return, List.map_cons, List.map_nil]
      norm_num
    rw [hconv]
    have hsum : Real.log (16/5 : ℝ) + Real.log (5/4 : ℝ) = 2 * Real.log 2 := by
      rw [← Real.log_mul (by norm_num) (by norm_num)]
      rw [show (16/5 : ℝ) * (5/4) = 2 ^ 2 by norm_num]
      rw [Real.log_pow]
      norm_num
    have hmean : mean ([Real.log (16/5 : ℝ), Real.log (5/4 : ℝ)].map
        (fun r => r - Real.log 2)) = 0 := by
      simp only [List.map_cons, List.map_nil, mean, List.sum_cons,
        List.sum_nil, List.length_cons, List.length_nil]
      rw [show Real.log (16/5 : ℝ) - Real.log 2 +
          (Real.log (5/4 : ℝ) - Real.log 2 + 0)
        = Real.log (16/5 : ℝ) + Real.log (5/4 : ℝ) - 2 * Real.log 2 by ring,
        hsum]
      norm_num
    rw [hmean]
    norm_num
  · have hL1 : (6931471803/10000000000 : ℝ) < Real.log 2 := by
      have h := Real.log_two_gt_d9
      norm_num at h
      linarith
    have hL2 : Real.log 2 < (6931471808/10000000000 : ℝ) := by
      have h := Real.log_two_lt_d9
      norm_num at h
      linarith
    set L := Real.log 2 with hLdef
    set A := (1 : ℝ) + (11/5 - L) with hAdef
    set B := (1 : ℝ) + (1/4 - L) with hBdef
    clear_value L A B
    have hA1 : (25068528192/10000000000 : ℝ) < A := by rw [hAdef]; linarith
    have hB1 : (5568528192/10000000000 : ℝ) < B := by rw [hBdef]; linarith
    have hB2 : B < (5568528197/10000000000 : ℝ) := by rw [hBdef]; linarith
    have hApos : (0 : ℝ) < A := by linarith
    have hBpos : (0 : ℝ) < B := by linarith
    have hlogA : 0 < Real.log A := Real.log_pos (by linarith)
    have hlogB : Real.log B < 0 := Real.log_neg hBpos (by linarith)
    have hAB : (139/100 : ℝ) ≤ A * B := by nlinarith
    have hlogAB : Real.log A + Real.log B = Real.log (A * B) :=
      (Real.log_mul (ne_of_gt hApos) (ne_of_gt hBpos)).symm
    have hnum : (28/100 : ℝ) ≤ Real.log A + Real.log B := by
      rw [hlogAB]
      have hABpos : (0 : ℝ) < A * B := by linarith
      have h1 := one_sub_inv_le_log (A * B) hABpos
      have h2 : (A * B)⁻¹ ≤ ((139/100 : ℝ))⁻¹ := by
        apply inv_anti₀ (by norm_num) hAB
      have h3 : ((139/100 : ℝ))⁻¹ ≤ 72/100 := by norm_num
      linarith
    have hmlogB : -Real.log B ≤ 796/1000 := by
      have hBinv : Real.log B⁻¹ ≤ B⁻¹ - 1 :=
        Real.log_le_sub_one_of_pos (inv_pos.mpr hBpos)
      rw [Real.log_inv] at hBinv
      have hinv : B⁻¹ ≤ 1796/1000 := by
        rw [inv_eq_one_div, div_le_iff₀ hBpos]
        nlinarith
      linarith
    have hcore : sortino_iid_core [11/5, 1/4] L 1 "pct" =
        1 * mean [Real.log A, Real.log B] /
          Real.sqrt (mean [(if Real.log A < 0 then Real.log A else 0) ^ 2,
            (if Real.log B < 0 then Real.log B else 0) ^ 2]) := by
      rw [hAdef, hBdef, hLdef]
      rfl
    rw [hcore]
    rw [if_neg (not_lt.mpr (le_of_lt hlogA)), if_pos hlogB]
    have hmean2 : mean [(0 : ℝ) ^ 2, Real.log B ^ 2] = Real.log B ^ 2 / 2 := by
      simp only [mean, List.sum_cons, List.sum_nil, List.length_cons,
        List.length_nil]
      norm_num
    rw [hmean2]
    have hden_pos : 0 < Real.sqrt (Real.log B ^ 2 / 2) := by
      apply Real.sqrt_pos.mpr
      have : Real.log B ≠ 0 := ne_of_lt hlogB
      positivity
    have hden_le : Real.sqrt (Real.log B ^ 2 / 2) ≤ 563/1000 := by
      have h1 : Real.log B ^ 2 / 2 ≤ (563/1000 : ℝ) ^ 2 := by
        nlinarith [mul_nonneg (by linarith : (0 : ℝ) ≤ 796/1000 + Real.log B)
          (by linarith : (0 : ℝ) ≤ 796/1000 - Real.log B)]
      calc Real.sqrt (Real.log B ^ 2 / 2) ≤ Real.sqrt ((563/1000 : ℝ) ^ 2) :=
            Real.sqrt_le_sqrt h1
        _ = 563/1000 := Real.sqrt_sq (by norm_num)
    have hmean1 : mean [Real.log A, Real.log B] =
        (Real.log A + Real.log B) / 2 := by
      simp only [mean, List.sum_cons, List.sum_nil, List.length_cons,
        List.length_nil]
      norm_num
    rw [hmean1, sub_zero, one_mul]
    have hval_pos : (0 : ℝ) <
        (Real.log A + Real.log B) / 2 / Real.sqrt (Real.log B ^ 2 / 2) := by
      apply div_pos (by linarith) hden_pos
    rw [abs_of_pos hval_pos]
    rw [show (1e-9 : ℝ) = 1/1000000000 by norm_num]
    rw [lt_div_iff₀ hden_pos]
    nlinarith

/-- C3 amended: `sortino` and `sortino_iid` compute the same value
exactly (in the real-number model) for `return_type = 'log'` with any
target, and for `return_type = 'pct'` with target `0`; the claimed
agreement fails only for `'pct'` with a nonzero target, where the two
functions convert to log space at different points. -/
theorem c3_amended_sortino_agree (xs : List ℝ) (t f : ℝ) :
    sortino xs t f "log" = Except.ok (sortino_iid_core xs t f "log") ∧
    sortino_iid (PyInput.arr xs) t f "log" =
      Except.ok (PyOutput.series [("0", sortino_iid_core xs t f "log")]) ∧
    sortino xs 0 f "pct" = Except.ok (sortino_iid_core xs 0 f "pct") := by
  refine ⟨?_, rfl, ?_⟩
  · rw [show sortino xs t f "log" =
      Except.ok (mean (xs.map (fun r => r - t)) /
        Real.sqrt (LPM xs t 2) * f) from rfl]
    rw [show sortino_iid_core xs t f "log" =
      f * mean (xs.map (fun x => x - t)) /
        Real.sqrt (mean (((xs.map (fun x => x - t)).map
          (fun x => if x < 0 then x else 0)).map (fun x => x ^ 2))) from rfl]
    rw [List.map_map]
    rw [show ((fun x : ℝ => x ^ 2) ∘ fun x : ℝ => if x < 0 then x else 0)
      = fun x : ℝ => (if x < 0 then x else 0) ^ 2 from rfl]
    rw [← lpm2_eq_semivar]
    congr 1
    ring
  · rw [show sortino xs 0 f "pct" =
      Except.ok (mean ((pct_to_log_return xs).map (fun r => r - 0)) /
        Real.sqrt (LPM (pct_to_log_return xs) 0 2) * f) from rfl]
    rw [show sortino_iid_core xs 0 f "pct" =
      f * mean (pct_to_log_return (xs.map (fun x => x - 0))) /
        Real.sqrt (mean (((pct_to_log_return (xs.map (fun x => x - 0))).map
          (fun x => if x < 0 then x else 0)).map (fun x => x ^ 2))) from rfl]
    have hx0 : xs.map (fun x => x - (0 : ℝ)) = xs := by simp
    rw [hx0]
    have hl : (pct_to_log_return xs).map (fun r => r - (0 : ℝ))
        = pct_to_log_return xs := by simp
    rw [hl, List.map_map]
    rw [show ((fun x : ℝ => x ^ 2) ∘ fun x : ℝ => if x < 0 then x else 0)
      = fun x : ℝ => (if x < 0 then x else 0) ^ 2 from rfl]
    have hsemi : List.map (fun x : ℝ => (if x < 0 then x else 0) ^ 2)
        (pct_to_log_return xs)
        = ((pct_to_log_return xs).map (fun x => x - 0)).map
          (fun x => (if x < 0 then x else 0) ^ 2) := by
      rw [hl]
    rw [hsemi, ← lpm2_eq_semivar]
    congr 1
    ring

end PyPbo
